import Mathlib

/-!
Shallow embedding of the school-api controllers
(`src/controllers/student.controller.js`, the course controller and the
teacher controller) and proofs about their list-query normalization,
pagination envelope and error handling.

Conventions of the embedding:
- JavaScript strings are `String`, an absent query parameter is `none`.
- JavaScript `parseInt` is modelled exactly on integer inputs
  (leading whitespace, optional sign, hex `0x` prefix, longest digit
  prefix, `NaN` as `none`); float precision loss on astronomically long
  digit strings is out of scope.
- `Math.ceil(a / b)` on integer operands is modelled as the exact
  rational ceiling.
- A thrown persistence-layer error is the `Except.error` case carrying
  the error message; the ORM lookup result is `Option`-valued.
- A JSON object literal is a `List (String × _)` of its fields in
  source order, since JS object key order is observable in the emitted
  JSON.
-/

namespace SchoolApi

/-- Whitespace characters skipped by JavaScript `parseInt` before
reading digits. -/
def jsWhitespace (c : Char) : Bool :=
  c = ' ' ∨ c = '\t' ∨ c = '\n' ∨ c = '\r' ∨ c = Char.ofNat 11 ∨ c = Char.ofNat 12

/-- Decimal value of a character, `none` when it is not a decimal digit. -/
def decVal (c : Char) : Option Nat :=
  if c.isDigit then some (c.toNat - '0'.toNat) else none

/-- Hexadecimal value of a character, `none` when it is not a hex digit. -/
def hexVal (c : Char) : Option Nat :=
  if c.isDigit then some (c.toNat - '0'.toNat)
  else if 'a' ≤ c ∧ c ≤ 'f' then some (c.toNat - 'a'.toNat + 10)
  else if 'A' ≤ c ∧ c ≤ 'F' then some (c.toNat - 'A'.toNat + 10)
  else none

/-- Longest digit prefix of `cs` read in base `base` using digit
function `digit`; `none` when there is no digit at all (the `NaN`
outcome of `parseInt`). -/
def parseDigits (digit : Char → Option Nat) (base : Nat) (cs : List Char) : Option Nat :=
  let ds := cs.takeWhile (fun c => (digit c).isSome)
  if ds.isEmpty then none
  else some (ds.foldl (fun a c => a * base + (digit c).getD 0) 0)

/-- JavaScript `parseInt(x)` for `x` a string or `undefined` (`none`):
skip leading whitespace, read one optional sign, then either a `0x`/`0X`
hexadecimal literal or a decimal digit prefix; no digits gives `NaN`
(`none`). Used by the controllers at `parseInt(req.query.limit)` and
`parseInt(req.query.page)`. -/
def jsParseInt (s : Option String) : Option Int :=
  match s with
  | none => none
  | some str =>
    let cs := (str.toList).dropWhile jsWhitespace
    let signed : Int × List Char :=
      match cs with
      | '-' :: r => (-1, r)
      | '+' :: r => (1, r)
      | r => (1, r)
    match signed.2 with
    | '0' :: c :: r2 =>
      if c = 'x' ∨ c = 'X' then (parseDigits hexVal 16 r2).map (fun n => signed.1 * n)
      else (parseDigits decVal 10 signed.2).map (fun n => signed.1 * n)
    | _ => (parseDigits decVal 10 signed.2).map (fun n => signed.1 * n)

/-- JavaScript `s.split(',')` on the character list: always returns at
least one (possibly empty) token. -/
def splitCommaList (cs : List Char) : List (List Char) :=
  match cs with
  | [] => [[]]
  | c :: rest =>
    if c = ',' then [] :: splitCommaList rest
    else
      match splitCommaList rest with
      | [] => [[c]]
      | h :: t => (c :: h) :: t

/-- JavaScript `s.split(',')` on strings. -/
def splitComma (s : String) : List String :=
  (splitCommaList s.toList).map fun cs => ⟨cs⟩

/-- The controllers' line `const limit = parseInt(req.query.limit) || 10`:
`NaN` and `0` are falsy and fall back to `10`. -/
def normLimit (q : Option String) : Int :=
  match jsParseInt q with
  | none => 10
  | some n => if n = 0 then 10 else n

/-- The controllers' line `const page = parseInt(req.query.page) || 1`. -/
def normPage (q : Option String) : Int :=
  match jsParseInt q with
  | none => 1
  | some n => if n = 0 then 1 else n

/-- The controllers' line
`const sort = req.query.sort === 'desc' ? 'DESC' : 'ASC'`. -/
def sortOf (q : Option String) : String :=
  if q = some "desc" then "DESC" else "ASC"

/-- The controllers' line `const populate = req.query.populate?.split(',') || []`:
an absent populate parameter yields the empty token list. -/
def tokensOf (populate : Option String) : List String :=
  match populate with
  | none => []
  | some s => splitComma s

/-- The three ORM model objects `db.Student`, `db.Course`, `db.Teacher`. -/
inductive Model where
  | Student
  | Course
  | Teacher
deriving DecidableEq

/-- Include-list construction of `getAllStudents` (student controller,
lines 97-99): push `db.Teacher` when the token `teacher` occurs, then
`db.Course` when the token `courses` occurs. -/
def studentIncludeModels (populate : Option String) : List Model :=
  (if (tokensOf populate).contains "teacher" then [Model.Teacher] else []) ++
  (if (tokensOf populate).contains "courses" then [Model.Course] else [])

/-- Include-list construction of `getAllCourses` (course controller,
lines 100-102): push `db.Teacher` for token `teacher`, then `db.Student`
for the singular token `student`. -/
def courseIncludeModels (populate : Option String) : List Model :=
  (if (tokensOf populate).contains "teacher" then [Model.Teacher] else []) ++
  (if (tokensOf populate).contains "student" then [Model.Student] else [])

/-- Include-list construction of `getAllTeachers` (teacher controller,
lines 97-99): push `db.Student` for token `students`, then `db.Course`
for token `courses`. -/
def teacherIncludeModels (populate : Option String) : List Model :=
  (if (tokensOf populate).contains "students" then [Model.Student] else []) ++
  (if (tokensOf populate).contains "courses" then [Model.Course] else [])

/-- Raw query-string parameters of a list request. -/
structure Query where
  limit : Option String
  page : Option String
  sort : Option String
  populate : Option String

/-- Argument object the list handlers pass to `findAll`:
`{limit, offset, order: [[sortKey, sortDir]], include: includeModels}`. -/
structure FetchSpec where
  limit : Int
  offset : Int
  order : List (String × String)
  includeModels : List Model
deriving DecidableEq

/-- Query normalization and `findAll` argument of `getAllStudents`
(student controller, lines 87-111). -/
def getAllStudentsFetch (q : Query) : FetchSpec :=
  { limit := normLimit q.limit
    offset := (normPage q.page - 1) * normLimit q.limit
    order := [("createdAt", sortOf q.sort)]
    includeModels := studentIncludeModels q.populate }

/-- Query normalization and `findAll` argument of `getAllCourses`
(course controller, lines 90-114). -/
def getAllCoursesFetch (q : Query) : FetchSpec :=
  { limit := normLimit q.limit
    offset := (normPage q.page - 1) * normLimit q.limit
    order := [("createdAt", sortOf q.sort)]
    includeModels := courseIncludeModels q.populate }

/-- Query normalization and `findAll` argument of `getAllTeachers`
(teacher controller, lines 87-111). -/
def getAllTeachersFetch (q : Query) : FetchSpec :=
  { limit := normLimit q.limit
    offset := (normPage q.page - 1) * normLimit q.limit
    order := [("createdAt", sortOf q.sort)]
    includeModels := teacherIncludeModels q.populate }

/-- JavaScript `Math.ceil` on exact rational input. -/
def mathCeil (q : ℚ) : ℤ := ⌈q⌉

/-- The handlers' expression `Math.ceil(total / limit)` where `total`
is the ORM count and `limit` the normalized limit. -/
def totalPagesOf (total : Nat) (limit : Int) : Int :=
  mathCeil ((total : ℚ) / (limit : ℚ))

/-- JSON field values occurring in a list envelope: numbers and the
data array (entities abstracted to identifiers). -/
inductive JVal where
  | num (n : Int)
  | arr (ids : List Nat)
deriving DecidableEq

/-- Response object of `getAllStudents` (student controller, lines
113-118): `{total, page, totalPages: Math.ceil(total / limit), data}`,
fields in source order. -/
def studentEnvelope (total : Nat) (page limit : Int) (data : List Nat) :
    List (String × JVal) :=
  [("total", JVal.num total),
   ("page", JVal.num page),
   ("totalPages", JVal.num (totalPagesOf total limit)),
   ("data", JVal.arr data)]

/-- Response object of `getAllCourses` (course controller, lines
116-121): `{total, page, data, totalPages: Math.ceil(total / limit)}`,
fields in source order — `data` precedes `totalPages` here. -/
def courseEnvelope (total : Nat) (page limit : Int) (data : List Nat) :
    List (String × JVal) :=
  [("total", JVal.num total),
   ("page", JVal.num page),
   ("data", JVal.arr data),
   ("totalPages", JVal.num (totalPagesOf total limit))]

/-- Response object of `getAllTeachers` (teacher controller, lines
113-118): `{total, page, totalPages: Math.ceil(total / limit), data}`,
fields in source order. -/
def teacherEnvelope (total : Nat) (page limit : Int) (data : List Nat) :
    List (String × JVal) :=
  [("total", JVal.num total),
   ("page", JVal.num page),
   ("totalPages", JVal.num (totalPagesOf total limit)),
   ("data", JVal.arr data)]

/-- JSON body of a single-entity endpoint response: the entity itself,
a `message` object or an `error` object. -/
inductive JsBody (α : Type) where
  | entity (e : α)
  | message (s : String)
  | error (s : String)
deriving DecidableEq

/-- HTTP response: status code plus JSON body. -/
structure Response (α : Type) where
  status : Nat
  body : JsBody α
deriving DecidableEq

/-- Handler `getStudentById` (student controller, lines 144-152), as a
function of the outcome of `db.Student.findByPk`: a thrown error gives
500 with the error message, a missing row gives 404 `Not found`,
otherwise 200 with the entity. -/
def getStudentById (find : Except String (Option α)) : Response α :=
  match find with
  | Except.error e => ⟨500, JsBody.error e⟩
  | Except.ok none => ⟨404, JsBody.message "Not found"⟩
  | Except.ok (some s) => ⟨200, JsBody.entity s⟩

/-- Handler `updateStudent` (student controller, lines 174-183), as a
function of the `findByPk` outcome and of the instance `update` call
performed when a row was found. -/
def updateStudent (find : Except String (Option α)) (upd : α → Except String α) :
    Response α :=
  match find with
  | Except.error e => ⟨500, JsBody.error e⟩
  | Except.ok none => ⟨404, JsBody.message "Not found"⟩
  | Except.ok (some s) =>
    match upd s with
    | Except.error e => ⟨500, JsBody.error e⟩
    | Except.ok s2 => ⟨200, JsBody.entity s2⟩

/-- Handler `deleteStudent` (student controller, lines 200-209), as a
function of the `findByPk` outcome and the instance `destroy` call. -/
def deleteStudent (find : Except String (Option α)) (destroy : Except String Unit) :
    Response α :=
  match find with
  | Except.error e => ⟨500, JsBody.error e⟩
  | Except.ok none => ⟨404, JsBody.message "Not found"⟩
  | Except.ok (some _) =>
    match destroy with
    | Except.error e => ⟨500, JsBody.error e⟩
    | Except.ok _ => ⟨200, JsBody.message "Deleted"⟩

/-- Handler `getTeacherById` (teacher controller, lines 142-150), same
shape as `getStudentById`. -/
def getTeacherById (find : Except String (Option α)) : Response α :=
  match find with
  | Except.error e => ⟨500, JsBody.error e⟩
  | Except.ok none => ⟨404, JsBody.message "Not found"⟩
  | Except.ok (some t) => ⟨200, JsBody.entity t⟩

/-- Handler `deleteTeacher` (teacher controller, lines 204-213), same
shape as `deleteStudent`. -/
def deleteTeacher (find : Except String (Option α)) (destroy : Except String Unit) :
    Response α :=
  match find with
  | Except.error e => ⟨500, JsBody.error e⟩
  | Except.ok none => ⟨404, JsBody.message "Not found"⟩
  | Except.ok (some _) =>
    match destroy with
    | Except.error e => ⟨500, JsBody.error e⟩
    | Except.ok _ => ⟨200, JsBody.message "Deleted"⟩

/-- Modelled from the spec: the external persistence layer (spec §6) is
not part of the repository; its table is modelled as an association list
from primary key to row, and `findByPk` as lookup of the first row with
that key. -/
def findByPk (st : List (Nat × α)) (id : Nat) : Option α :=
  (st.find? fun r => r.1 == id).map Prod.snd

/-- Modelled from the spec: instance `destroy()` removes the row with
the given primary key from the table. -/
def destroyPk (st : List (Nat × α)) (id : Nat) : List (Nat × α) :=
  st.filter fun r => r.1 != id

/-- Ordered allow-list of the student list endpoint, as behaved by
`getAllStudents`: token `teacher` includes `db.Teacher`, token `courses`
includes `db.Course`. -/
def studentAllowedRelations : List (String × Model) :=
  [("teacher", Model.Teacher), ("courses", Model.Course)]

/-- Ordered allow-list of the course list endpoint, as behaved by
`getAllCourses`: token `teacher` includes `db.Teacher`, singular token
`student` includes `db.Student`. -/
def courseAllowedRelations : List (String × Model) :=
  [("teacher", Model.Teacher), ("student", Model.Student)]

/-- Ordered allow-list of the teacher list endpoint, as behaved by
`getAllTeachers`: token `students` includes `db.Student`, token
`courses` includes `db.Course`. -/
def teacherAllowedRelations : List (String × Model) :=
  [("students", Model.Student), ("courses", Model.Course)]

/-- Relation resolution as the spec words it (§4.1): keep the
allow-list entries whose token occurs among the populate tokens, in
allow-list order, and return their entity descriptors. -/
def resolveRelations (allowed : List (String × Model)) (populate : Option String) :
    List Model :=
  (allowed.filter fun p => (tokensOf populate).contains p.1).map Prod.snd

theorem totalPages_eq_aux (total : ℕ) (limit : ℤ) (h : 1 ≤ limit) :
    totalPagesOf total limit = ((total + limit.toNat - 1) / limit.toNat : ℕ) := by
  have hd1 : 1 ≤ limit.toNat := by omega
  set d := limit.toNat with hddef
  have hlimd : limit = (d : ℤ) := by omega
  set z := (total + d - 1) / d with hzdef
  have key : total ≤ d * z ∧ d * z + 1 ≤ total + d := by
    have hdm := Nat.div_add_mod (total + d - 1) d
    have hmlt := Nat.mod_lt (total + d - 1) (show 0 < d by omega)
    rw [← hzdef] at hdm
    generalize (total + d - 1) % d = r at hdm hmlt
    generalize d * z = n at hdm ⊢
    omega
  have hd0Q : (0 : ℚ) < (d : ℚ) := by positivity
  rw [totalPagesOf, mathCeil, hlimd, Int.ceil_eq_iff]
  push_cast
  constructor
  · rw [lt_div_iff₀ hd0Q]
    have hq : (d : ℚ) * (z : ℚ) + 1 ≤ (total : ℚ) + (d : ℚ) := by exact_mod_cast key.2
    nlinarith [hq]
  · rw [div_le_iff₀ hd0Q]
    have hq : (total : ℚ) ≤ (d : ℚ) * (z : ℚ) := by exact_mod_cast key.1
    nlinarith [hq]

/-- C2: for every totalCount and every limit at least 1, the envelope
field totalPages equals the ceiling of totalCount divided by limit; in
particular totalCount 23 with limit 10 yields totalPages 3, and all
three list envelopes carry exactly this value in their totalPages
field. -/
theorem totalPages_eq_ceil_div (total : ℕ) (limit : ℤ) (h : 1 ≤ limit) :
    totalPagesOf total limit = ((total + limit.toNat - 1) / limit.toNat : ℕ) ∧
    totalPagesOf 23 10 = 3 ∧
    ∀ page data,
      ("totalPages", JVal.num (totalPagesOf total limit)) ∈ studentEnvelope total page limit data ∧
      ("totalPages", JVal.num (totalPagesOf total limit)) ∈ courseEnvelope total page limit data ∧
      ("totalPages", JVal.num (totalPagesOf total limit)) ∈ teacherEnvelope total page limit data := by
  refine ⟨totalPages_eq_aux total limit h, ?_, ?_⟩
  · have h3 := totalPages_eq_aux 23 10 (by decide)
    have hc : ((23 + (10 : ℤ).toNat - 1) / (10 : ℤ).toNat : ℕ) = 3 := by decide
    rw [hc] at h3
    exact_mod_cast h3
  · intro page data
    refine ⟨?_, ?_, ?_⟩ <;> simp [studentEnvelope, courseEnvelope, teacherEnvelope]

theorem totalPages_eq_ceil_div_witness :
    (1 : ℤ) ≤ 10 ∧ totalPagesOf 23 10 = 3 :=
  ⟨by decide, (totalPages_eq_ceil_div 23 10 (by decide)).2.1⟩

/-- C4: relation inclusion of the three list handlers agrees with
filtering the ordered per-entity allow-list by the populate tokens:
absent populate gives an empty include list, unrecognized tokens are
dropped without error, recognized tokens appear in allow-list order
(not client order), and no relation is ever included twice. -/
theorem populate_resolution_matches_allowlist (pop : Option String) :
    studentIncludeModels pop = resolveRelations studentAllowedRelations pop ∧
    courseIncludeModels pop = resolveRelations courseAllowedRelations pop ∧
    teacherIncludeModels pop = resolveRelations teacherAllowedRelations pop ∧
    (studentIncludeModels pop).Nodup ∧
    (courseIncludeModels pop).Nodup ∧
    (teacherIncludeModels pop).Nodup ∧
    studentIncludeModels none = [] ∧
    courseIncludeModels none = [] ∧
    teacherIncludeModels none = [] ∧
    studentIncludeModels (some "teacher,bogus") = [Model.Teacher] ∧
    studentIncludeModels (some "courses,teacher") = [Model.Teacher, Model.Course] ∧
    studentIncludeModels (some "teacher,teacher") = [Model.Teacher] := by
  refine ⟨?_, ?_, ?_, ?_, ?_, ?_, by decide, by decide, by decide, by decide, by decide,
    by decide⟩
  · simp only [studentIncludeModels, resolveRelations, studentAllowedRelations,
      List.filter_cons, List.filter_nil]
    by_cases h1 : "teacher" ∈ tokensOf pop <;>
      by_cases h2 : "courses" ∈ tokensOf pop <;>
        simp [h1, h2]
  · simp only [courseIncludeModels, resolveRelations, courseAllowedRelations,
      List.filter_cons, List.filter_nil]
    by_cases h1 : "teacher" ∈ tokensOf pop <;>
      by_cases h2 : "student" ∈ tokensOf pop <;>
        simp [h1, h2]
  · simp only [teacherIncludeModels, resolveRelations, teacherAllowedRelations,
      List.filter_cons, List.filter_nil]
    by_cases h1 : "students" ∈ tokensOf pop <;>
      by_cases h2 : "courses" ∈ tokensOf pop <;>
        simp [h1, h2]
  · unfold studentIncludeModels
    by_cases h1 : "teacher" ∈ tokensOf pop <;>
      by_cases h2 : "courses" ∈ tokensOf pop <;>
        simp [h1, h2]
  · unfold courseIncludeModels
    by_cases h1 : "teacher" ∈ tokensOf pop <;>
      by_cases h2 : "student" ∈ tokensOf pop <;>
        simp [h1, h2]
  · unfold teacherIncludeModels
    by_cases h1 : "students" ∈ tokensOf pop <;>
      by_cases h2 : "courses" ∈ tokensOf pop <;>
        simp [h1, h2]

/-- C10: the hard-coded populate allow-lists are mutually inconsistent:
the course handler recognizes exactly the tokens teacher and the
singular student, the student handler teacher and courses, the teacher
handler students and courses; the plural token students is ignored by
the course handler while the teacher handler recognizes it. -/
theorem allowlist_tokens_inconsistent (pop : Option String) :
    (Model.Teacher ∈ courseIncludeModels pop ↔ "teacher" ∈ tokensOf pop) ∧
    (Model.Student ∈ courseIncludeModels pop ↔ "student" ∈ tokensOf pop) ∧
    Model.Course ∉ courseIncludeModels pop ∧
    (Model.Teacher ∈ studentIncludeModels pop ↔ "teacher" ∈ tokensOf pop) ∧
    (Model.Course ∈ studentIncludeModels pop ↔ "courses" ∈ tokensOf pop) ∧
    Model.Student ∉ studentIncludeModels pop ∧
    (Model.Student ∈ teacherIncludeModels pop ↔ "students" ∈ tokensOf pop) ∧
    (Model.Course ∈ teacherIncludeModels pop ↔ "courses" ∈ tokensOf pop) ∧
    Model.Teacher ∉ teacherIncludeModels pop ∧
    courseIncludeModels (some "students") = [] ∧
    teacherIncludeModels (some "students") = [Model.Student] := by
  refine ⟨?_, ?_, ?_, ?_, ?_, ?_, ?_, ?_, ?_, by decide, by decide⟩ <;>
    first
    | (unfold courseIncludeModels
       by_cases h1 : "teacher" ∈ tokensOf pop <;>
         by_cases h2 : "student" ∈ tokensOf pop <;>
           simp [h1, h2])
    | (unfold studentIncludeModels
       by_cases h1 : "teacher" ∈ tokensOf pop <;>
         by_cases h2 : "courses" ∈ tokensOf pop <;>
           simp [h1, h2])
    | (unfold teacherIncludeModels
       by_cases h1 : "students" ∈ tokensOf pop <;>
         by_cases h2 : "courses" ∈ tokensOf pop <;>
           simp [h1, h2])

theorem allowlist_tokens_inconsistent_witness :
    courseIncludeModels (some "students") = [] ∧
    teacherIncludeModels (some "students") = [Model.Student] :=
  ⟨(allowlist_tokens_inconsistent (some "students")).2.2.2.2.2.2.2.2.2.1,
   (allowlist_tokens_inconsistent (some "students")).2.2.2.2.2.2.2.2.2.2⟩

/-- C1 counterexample: at totalCount 23, page 2, limit 10 and empty
data, the course list envelope does not have the same field ordering as
the student list envelope — the course handler emits data before
totalPages — so the three handlers do not emit an identical envelope
object. -/
theorem course_envelope_order_differs :
    (courseEnvelope 23 2 10 []).map Prod.fst ≠ (studentEnvelope 23 2 10 []).map Prod.fst ∧
    courseEnvelope 23 2 10 [] ≠ studentEnvelope 23 2 10 [] := by
  have hk : (courseEnvelope 23 2 10 []).map Prod.fst ≠
      (studentEnvelope 23 2 10 []).map Prod.fst := by decide
  exact ⟨hk, fun h => hk (congrArg (List.map Prod.fst) h)⟩

/-- C1 amended: for every totalCount, page, limit and data, the student
and teacher list handlers emit literally identical envelopes with field
order total, page, totalPages, data; the course handler emits the same
four fields with the same values but as a permutation, ordering data
before totalPages. -/
theorem envelope_cross_entity_shape (total : ℕ) (page limit : ℤ) (data : List ℕ) :
    studentEnvelope total page limit data = teacherEnvelope total page limit data ∧
    (courseEnvelope total page limit data).Perm (studentEnvelope total page limit data) ∧
    (studentEnvelope total page limit data).map Prod.fst =
      ["total", "page", "totalPages", "data"] ∧
    (teacherEnvelope total page limit data).map Prod.fst =
      ["total", "page", "totalPages", "data"] ∧
    (courseEnvelope total page limit data).map Prod.fst =
      ["total", "page", "data", "totalPages"] := by
  refine ⟨rfl, ?_, rfl, rfl, rfl⟩
  unfold courseEnvelope studentEnvelope
  exact List.Perm.cons _ (List.Perm.cons _ (List.Perm.swap _ _ _))

/-- C5: in all three list handlers the sort key is always createdAt,
the exact case-sensitive string desc maps to DESC, and every other
value of the sort parameter — absent and the uppercase DESC included —
maps to ASC. -/
theorem sort_normalization (q : Query) :
    (getAllStudentsFetch q).order = [("createdAt", sortOf q.sort)] ∧
    (getAllCoursesFetch q).order = [("createdAt", sortOf q.sort)] ∧
    (getAllTeachersFetch q).order = [("createdAt", sortOf q.sort)] ∧
    (∀ s : Option String, s = some "desc" → sortOf s = "DESC") ∧
    (∀ s : Option String, s ≠ some "desc" → sortOf s = "ASC") ∧
    sortOf (some "desc") = "DESC" ∧
    sortOf (some "DESC") = "ASC" ∧
    sortOf none = "ASC" := by
  refine ⟨rfl, rfl, rfl, ?_, ?_, by decide, by decide, by decide⟩
  · intro s hs
    rw [hs]
    decide
  · intro s hs
    unfold sortOf
    rw [if_neg hs]

theorem sort_normalization_witness :
    sortOf (some "DESC") = "ASC" ∧ sortOf (some "asc") = "ASC" ∧
    sortOf (some "desc") = "DESC" :=
  ⟨(sort_normalization ⟨none, none, none, none⟩).2.2.2.2.2.2.1,
   (sort_normalization ⟨none, none, none, none⟩).2.2.2.2.1 (some "asc") (by decide),
   (sort_normalization ⟨none, none, none, none⟩).2.2.2.1 (some "desc") rfl⟩

/-- C6: the three list handlers compute offset as (page - 1) times
limit over the normalized values; page 3 with limit 5 gives offset 10,
and a negative parsed page is accepted as-is, so page -1 with limit 10
gives page -1 and offset -20. -/
theorem offset_formula (q : Query) :
    (getAllStudentsFetch q).offset = (normPage q.page - 1) * normLimit q.limit ∧
    (getAllCoursesFetch q).offset = (normPage q.page - 1) * normLimit q.limit ∧
    (getAllTeachersFetch q).offset = (normPage q.page - 1) * normLimit q.limit ∧
    (getAllStudentsFetch ⟨some "5", some "3", none, none⟩).offset = 10 ∧
    normPage (some "-1") = -1 ∧
    (getAllStudentsFetch ⟨some "10", some "-1", none, none⟩).offset = -20 :=
  ⟨rfl, rfl, rfl, by decide, by decide, by decide⟩

/-- C7: whenever the limit parameter fails integer parsing or parses
to zero, all three list handlers fall back to limit 10; normalization
is total, so no malformed limit input is an error. -/
theorem limit_fallback (q : Query) :
    ((jsParseInt q.limit = none ∨ jsParseInt q.limit = some 0) →
      (getAllStudentsFetch q).limit = 10 ∧ (getAllCoursesFetch q).limit = 10 ∧
      (getAllTeachersFetch q).limit = 10) ∧
    (getAllStudentsFetch q).limit = normLimit q.limit ∧
    normLimit none = 10 ∧
    normLimit (some "abc") = 10 ∧
    normLimit (some "") = 10 ∧
    normLimit (some "0") = 10 := by
  refine ⟨?_, rfl, by decide, by decide, by decide, by decide⟩
  intro h
  have hl : normLimit q.limit = 10 := by
    rcases h with h | h <;> simp [normLimit, h]
  exact ⟨hl, hl, hl⟩

theorem limit_fallback_witness :
    (jsParseInt (some "abc") = none ∨ jsParseInt (some "abc") = some 0) ∧
    (getAllStudentsFetch ⟨some "abc", none, none, none⟩).limit = 10 :=
  ⟨Or.inl (by decide),
   ((limit_fallback ⟨some "abc", none, none, none⟩).1 (Or.inl (by decide))).1⟩

/-- C8: whenever the page parameter fails integer parsing or parses to
zero, the list handlers use page 1 and therefore offset 0. -/
theorem page_fallback (q : Query) :
    ((jsParseInt q.page = none ∨ jsParseInt q.page = some 0) →
      normPage q.page = 1 ∧
      (getAllStudentsFetch q).offset = 0 ∧ (getAllCoursesFetch q).offset = 0 ∧
      (getAllTeachersFetch q).offset = 0) ∧
    normPage none = 1 ∧ normPage (some "abc") = 1 ∧ normPage (some "0") = 1 := by
  refine ⟨?_, by decide, by decide, by decide⟩
  intro h
  have h1 : normPage q.page = 1 := by
    rcases h with h | h <;> simp [normPage, h]
  refine ⟨h1, ?_, ?_, ?_⟩ <;>
    simp [getAllStudentsFetch, getAllCoursesFetch, getAllTeachersFetch, h1]

theorem page_fallback_witness :
    (jsParseInt (some "0") = none ∨ jsParseInt (some "0") = some 0) ∧
    normPage (some "0") = 1 ∧
    (getAllStudentsFetch ⟨none, some "0", none, none⟩).offset = 0 :=
  ⟨Or.inr (by decide),
   ((page_fallback ⟨none, some "0", none, none⟩).1 (Or.inr (by decide))).1,
   ((page_fallback ⟨none, some "0", none, none⟩).1 (Or.inr (by decide))).2.1⟩

/-- C3: the get-by-id, update and delete handlers respond 404 with the
fixed body Not found exactly when the primary-key lookup returns
nothing; any error thrown by the persistence layer — on the lookup, the
update or the destroy — yields 500 with the underlying error message as
body, and 200, 404 and 500 are the only possible statuses. -/
theorem student_byId_error_outcomes {α : Type} (find : Except String (Option α))
    (upd : α → Except String α) (destroy : Except String Unit) :
    (getStudentById find = ⟨404, JsBody.message "Not found"⟩ ↔ find = Except.ok none) ∧
    (updateStudent find upd = ⟨404, JsBody.message "Not found"⟩ ↔ find = Except.ok none) ∧
    (deleteStudent find destroy = ⟨404, JsBody.message "Not found"⟩ ↔ find = Except.ok none) ∧
    (∀ m, find = Except.error m →
      getStudentById find = ⟨500, JsBody.error m⟩ ∧
      updateStudent find upd = ⟨500, JsBody.error m⟩ ∧
      deleteStudent find destroy = ⟨500, JsBody.error m⟩) ∧
    (∀ s m, find = Except.ok (some s) → upd s = Except.error m →
      updateStudent find upd = ⟨500, JsBody.error m⟩) ∧
    (∀ s m, find = Except.ok (some s) → destroy = Except.error m →
      deleteStudent find destroy = ⟨500, JsBody.error m⟩) ∧
    ((getStudentById find).status = 500 ↔ ∃ m, find = Except.error m) ∧
    ((updateStudent find upd).status = 500 ↔
      (∃ m, find = Except.error m) ∨
        ∃ s m, find = Except.ok (some s) ∧ upd s = Except.error m) ∧
    ((deleteStudent find destroy).status = 500 ↔
      (∃ m, find = Except.error m) ∨
        ∃ s m, find = Except.ok (some s) ∧ destroy = Except.error m) ∧
    ((getStudentById find).status = 200 ∨ (getStudentById find).status = 404 ∨
      (getStudentById find).status = 500) ∧
    ((updateStudent find upd).status = 200 ∨ (updateStudent find upd).status = 404 ∨
      (updateStudent find upd).status = 500) ∧
    ((deleteStudent find destroy).status = 200 ∨ (deleteStudent find destroy).status = 404 ∨
      (deleteStudent find destroy).status = 500) := by
  rcases find with e | o
  · simp [getStudentById, updateStudent, deleteStudent]
  · rcases o with _ | s
    · simp [getStudentById, updateStudent, deleteStudent]
    · rcases hu : upd s with me | s2 <;> rcases hd : destroy with md | u <;>
        simp [getStudentById, updateStudent, deleteStudent, hu, hd] <;>
        (intro s1 m hs1
         subst hs1
         rw [hu]
         simp)

theorem student_byId_error_outcomes_witness :
    getStudentById (α := Nat) (Except.ok none) = ⟨404, JsBody.message "Not found"⟩ ∧
    updateStudent (α := Nat) (Except.error "boom") (fun s => Except.ok s) =
      ⟨500, JsBody.error "boom"⟩ :=
  ⟨(student_byId_error_outcomes (α := Nat) (Except.ok none) (fun s => Except.ok s)
      (Except.ok ())).1.mpr rfl,
   ((student_byId_error_outcomes (α := Nat) (Except.error "boom") (fun s => Except.ok s)
      (Except.ok ())).2.2.2.1 "boom" rfl).2.1⟩

/-- C9: deleting an id present in the store responds 200 with body
Deleted, and a subsequent get-by-id on the store with that row removed
responds 404 Not found — the DELETE then GET sequence on the same id
returns 200 then 404. -/
theorem teacher_delete_then_get {α : Type} (st : List (Nat × α)) (id : Nat) (t : α)
    (h : findByPk st id = some t) :
    deleteTeacher (Except.ok (findByPk st id)) (Except.ok ()) =
      ⟨200, JsBody.message "Deleted"⟩ ∧
    getTeacherById (α := α) (Except.ok (findByPk (destroyPk st id) id)) =
      ⟨404, JsBody.message "Not found"⟩ := by
  constructor
  · rw [h]
    rfl
  · have hn : findByPk (destroyPk st id) id = none := by
      unfold findByPk
      have hfn : (destroyPk st id).find? (fun r => r.1 == id) = none := by
        rw [List.find?_eq_none]
        intro x hx
        simp only [destroyPk, List.mem_filter] at hx
        simpa using hx.2
      rw [hfn]
      rfl
    rw [hn]
    rfl

theorem teacher_delete_then_get_witness :
    findByPk [((1 : Nat), (0 : Nat))] 1 = some 0 ∧
    deleteTeacher (Except.ok (findByPk [((1 : Nat), (0 : Nat))] 1)) (Except.ok ()) =
      ⟨200, JsBody.message "Deleted"⟩ ∧
    getTeacherById (Except.ok (findByPk (destroyPk [((1 : Nat), (0 : Nat))] 1) 1)) =
      ⟨404, JsBody.message "Not found"⟩ :=
  ⟨rfl,
   (teacher_delete_then_get [((1 : Nat), (0 : Nat))] 1 0 rfl).1,
   (teacher_delete_then_get [((1 : Nat), (0 : Nat))] 1 0 rfl).2⟩

end SchoolApi
